import Mathlib

/-!
Verification of the replizieren replication engine.

The Go sources are embedded shallowly:
* annotation maps (Go `map[string]string`) become association lists
  `List (String × String)`; Go's zero-value lookup is `annGet`;
* `strings.Split(s, ",")` becomes `splitComma` (identical semantics:
  keeps empty fields, returns a singleton for the empty string);
* `strings.TrimSpace` becomes `trimSpace` (strips the same space
  characters Go's `unicode.IsSpace` recognises in Latin-1);
* loops that append become structural recursion producing the list of
  iteration effects in order.
-/

/-- Annotation key `replizieren.dev/replicate` (replicator.go, `ReplicateKey`). -/
def ReplicateKey : String := "replizieren.dev/replicate"

/-- Annotation key `replizieren.dev/rollout-on-update` (replicator.go, `RolloutOnUpdateKey`). -/
def RolloutOnUpdateKey : String := "replizieren.dev/rollout-on-update"

/-- Annotation key `replizieren.dev/replicate-all` (referenced by the repository's
tests and documentation as `ReplicateAllKey`). -/
def ReplicateAllKey : String := "replizieren.dev/replicate-all"

/-- Go map lookup: `m[k]` yields the zero value `""` for a missing key. -/
def annGet (m : List (String × String)) (k : String) : String :=
  (m.lookup k).getD ""

/-- The space characters Go's `unicode.IsSpace` recognises in Latin-1
(`strings.TrimSpace` strips exactly these for ASCII/Latin-1 input). -/
def goIsSpace (c : Char) : Bool :=
  c = ' ' || c = '\t' || c = '\n' || c = '\x0b' || c = '\x0c' || c = '\r'
    || c = '\u0085' || c = '\u00A0'

/-- Go `strings.TrimSpace`: drop leading and trailing space characters. -/
def trimSpace (s : String) : String :=
  String.mk (((s.toList.dropWhile goIsSpace).reverse.dropWhile goIsSpace).reverse)

/-- Go `strings.Split(s, ",")` on the character list: splitting the empty
input gives one empty field, and every comma opens a new field. -/
def splitCommaAux : List Char → List (List Char)
  | [] => [[]]
  | c :: rest =>
    match splitCommaAux rest with
    | [] => [[]]
    | g :: gs => if c = ',' then [] :: g :: gs else (c :: g) :: gs

/-- Go `strings.Split(s, ",")`. -/
def splitComma (s : String) : List String :=
  (splitCommaAux s.toList).map String.mk

/-- `ReplicationConfig` from replicator.go: parsed annotation configuration. -/
structure ReplicationConfig where
  TargetNamespaces : List String
  ReplicateAll : Bool
  RolloutOnUpdate : Bool
  SkipReplication : Bool
deriving DecidableEq, Repr

/-- The namespace-list loop inside `ParseReplicationConfig` (replicator.go:64-70):
for each comma entry, trim it, and append it unless it is empty or equals the
source namespace. -/
def parseTargetLoop (sourceNamespace : String) : List String → List String
  | [] => []
  | ns :: rest =>
    let t := trimSpace ns
    if t != "" && t != sourceNamespace then t :: parseTargetLoop sourceNamespace rest
    else parseTargetLoop sourceNamespace rest

/-- `ParseReplicationConfig` (replicator.go:45-73): extracts replication settings
from the annotation map. This is the version present in
src/internal/controller/replicator.go, which reads only `replicate` and
`rollout-on-update`. -/
def ParseReplicationConfig (m : List (String × String)) (sourceNamespace : String) :
    ReplicationConfig :=
  let replicateTo := annGet m ReplicateKey
  let rollout := annGet m RolloutOnUpdateKey == "true"
  if replicateTo == "" || replicateTo == "false" then
    ⟨[], false, rollout, true⟩
  else if replicateTo == "true" then
    ⟨[], true, rollout, false⟩
  else
    ⟨parseTargetLoop sourceNamespace (splitComma replicateTo), false, rollout, false⟩

/-- The append loop of `ParseReplicationConfig` is exactly trim-then-filter. -/
theorem parseTargetLoop_eq (src : String) (l : List String) :
    parseTargetLoop src l
      = (l.map trimSpace).filter (fun t => t != "" && t != src) := by
  induction l with
  | nil => rfl
  | cons a l ih =>
    by_cases h : (trimSpace a != "" && trimSpace a != src) = true
    · simp [parseTargetLoop, List.filter_cons, h, ih]
    · simp only [Bool.not_eq_true] at h
      simp [parseTargetLoop, List.filter_cons, h, ih]

/-- Entries of a parsed target list: exactly the trimmed comma entries that are
nonempty and differ from the source namespace. -/
theorem mem_parseTargetLoop (src ns : String) (l : List String) :
    ns ∈ parseTargetLoop src l ↔ (ns ∈ l.map trimSpace ∧ ns ≠ "" ∧ ns ≠ src) := by
  rw [parseTargetLoop_eq]
  simp [List.mem_filter, and_assoc]

/-- C8: ParseReplicationConfig trims each comma entry, drops empty entries, and
drops entries equal to the source namespace; in particular `"ns1, ,ns2,"` on
source `src` yields `[ns1, ns2]` and `"src,tgt"` on source `src` yields `[tgt]`. -/
theorem c8_list_parsing :
    (∀ v src, v ≠ "" → v ≠ "false" → v ≠ "true" →
      (ParseReplicationConfig [(ReplicateKey, v)] src).TargetNamespaces
        = ((splitComma v).map trimSpace).filter (fun t => t != "" && t != src))
    ∧ (ParseReplicationConfig [(ReplicateKey, "ns1, ,ns2,")] "src").TargetNamespaces
        = ["ns1", "ns2"]
    ∧ (ParseReplicationConfig [(ReplicateKey, "src,tgt")] "src").TargetNamespaces
        = ["tgt"] := by
  refine ⟨?_, by decide, by decide⟩
  intro v src h1 h2 h3
  have e : annGet [(ReplicateKey, v)] ReplicateKey = v := by
    simp [annGet, List.lookup]
  simp [ParseReplicationConfig, e, h1, h2, h3, parseTargetLoop_eq]

/-- C8 witness at a concrete list value. -/
theorem c8_list_parsing_witness :
    (ParseReplicationConfig [(ReplicateKey, "a, ,b,")] "src").TargetNamespaces
      = ((splitComma "a, ,b,").map trimSpace).filter
          (fun t => t != "" && t != "src") :=
  c8_list_parsing.1 "a, ,b," "src" (by decide) (by decide) (by decide)

/-- Local annotation key constants of the Secret controller
(secret_controller.go:41-44); same values as the shared keys. -/
def replicateKeyS : String := "replizieren.dev/replicate"

/-- Local rollout key of the Secret controller (secret_controller.go:43). -/
def rolloutOnUpdateKeyS : String := "replizieren.dev/rollout-on-update"

/-- Observable effects of one run of `SecretReconciler.Reconcile`
(secret_controller.go:58-105): whether the run took the early skip return,
which namespaces received a `replicateSecret` attempt, which of those
attempts succeeded, and in which namespaces
`restartDeploymentsUsingSecret` was invoked, in loop order. -/
structure SecretTrace where
  skipped : Bool
  attempted : List String
  succeeded : List String
  rolledOut : List String
deriving DecidableEq, Repr

/-- The per-target loop of `SecretReconciler.Reconcile`
(secret_controller.go:92-102): for each target namespace, replicate unless
the annotation value is `"false"` or empty; on a replication error, log and
`continue` (which also skips the rollout for that namespace); otherwise
restart deployments when the rollout flag is set. `ok` gives each
namespace's replication outcome. -/
def secretReconcileLoop (replicateTo : String) (rollout : Bool)
    (ok : String → Bool) : List String → SecretTrace
  | [] => ⟨false, [], [], []⟩
  | ns :: rest =>
    let t := secretReconcileLoop replicateTo rollout ok rest
    if replicateTo != "false" && replicateTo != "" then
      if ok ns then
        ⟨false, ns :: t.attempted, ns :: t.succeeded,
          if rollout then ns :: t.rolledOut else t.rolledOut⟩
      else
        ⟨false, ns :: t.attempted, t.succeeded, t.rolledOut⟩
    else
      ⟨false, t.attempted, t.succeeded,
        if rollout then ns :: t.rolledOut else t.rolledOut⟩

/-- The inline all-namespaces loop of `SecretReconciler.Reconcile`
(secret_controller.go:78-88): every cluster namespace except the
secret's own. -/
def secretAllNamespaces : List String → String → List String
  | [], _ => []
  | ns :: rest, src =>
    if ns != src then ns :: secretAllNamespaces rest src
    else secretAllNamespaces rest src

/-- `SecretReconciler.Reconcile` (secret_controller.go:58-105) after the
source secret has been read successfully. `m` is the secret's annotation
map, `srcNs` its namespace, `clusterNs` the cluster's namespace names and
`ok` the per-namespace outcome of `replicateSecret`. Go parses
`replicateTo == "" || replicateTo == "false" && rollout == false` with
`&&` binding tighter than `||`. -/
def secretReconcile (m : List (String × String)) (srcNs : String)
    (clusterNs : List String) (ok : String → Bool) : SecretTrace :=
  let replicateTo := annGet m replicateKeyS
  let rollout := annGet m rolloutOnUpdateKeyS == "true"
  if replicateTo == "" || (replicateTo == "false" && !rollout) then
    ⟨true, [], [], []⟩
  else
    let targets :=
      if replicateTo == "true" then secretAllNamespaces clusterNs srcNs
      else splitComma replicateTo
    secretReconcileLoop replicateTo rollout ok targets

/-- C10: with `replicate: "false"` and `rollout-on-update: "true"` the Secret
controller does not skip: it resolves the target list to the literal string
`"false"`, performs no replication there, and attempts deployment restarts in
a namespace named `"false"`; with `replicate` missing and the same rollout
flag it skips entirely and rolls out nowhere. -/
theorem c10_false_plus_rollout (srcNs : String) (clusterNs : List String)
    (ok : String → Bool) :
    secretReconcile [(replicateKeyS, "false"), (rolloutOnUpdateKeyS, "true")]
        srcNs clusterNs ok = ⟨false, [], [], ["false"]⟩
    ∧ secretReconcile [(rolloutOnUpdateKeyS, "true")] srcNs clusterNs ok
        = ⟨true, [], [], []⟩ :=
  ⟨rfl, rfl⟩

/-- In the per-target loop, a replication attempt is made for every target
namespace whenever the annotation value is neither `"false"` nor empty. -/
theorem secretReconcileLoop_attempted (replTo : String) (rollout : Bool)
    (ok : String → Bool) (ts : List String)
    (h1 : replTo ≠ "false") (h2 : replTo ≠ "") :
    (secretReconcileLoop replTo rollout ok ts).attempted = ts := by
  have hb : (replTo != "false" && replTo != "") = true := by
    simp [bne_iff_ne, h1, h2]
  induction ts with
  | nil => rfl
  | cons ns rest ih =>
    cases hok : ok ns <;> simp [secretReconcileLoop, hb, hok, ih]

/-- Which namespaces receive a replication attempt does not depend on which
replication writes fail: a failure makes the loop `continue`, not abort. -/
theorem secretReconcileLoop_attempted_indep (replTo : String) (rollout : Bool)
    (ok1 ok2 : String → Bool) (ts : List String) :
    (secretReconcileLoop replTo rollout ok1 ts).attempted
      = (secretReconcileLoop replTo rollout ok2 ts).attempted := by
  induction ts with
  | nil => rfl
  | cons ns rest ih =>
    by_cases hb : (replTo != "false" && replTo != "") = true
    · cases h1 : ok1 ns <;> cases h2 : ok2 ns <;>
        simp [secretReconcileLoop, hb, h1, h2, ih]
    · simp only [Bool.not_eq_true] at hb
      simp [secretReconcileLoop, hb, ih]

/-- Rollout runs exactly for the target namespaces where either no
replication write happens (value `"false"`) or the write succeeded. -/
theorem secretReconcileLoop_rolledOut (replTo : String) (rollout : Bool)
    (ok : String → Bool) (ts : List String) (h : replTo ≠ "") :
    (secretReconcileLoop replTo rollout ok ts).rolledOut
      = ts.filter (fun ns => rollout && (replTo == "false" || ok ns)) := by
  have hne : (replTo != "") = true := bne_iff_ne.mpr h
  induction ts with
  | nil => rfl
  | cons ns rest ih =>
    cases hf : (replTo == "false") with
    | false =>
      have hb : (replTo != "false") = true := by simp [bne, hf]
      cases hok : ok ns <;> cases rollout <;>
        simp [secretReconcileLoop, hb, hne, List.filter_cons, hf, hok, ih]
    | true =>
      have hb : (replTo != "false") = false := by simp [bne, hf]
      cases rollout <;>
        simp [secretReconcileLoop, hb, List.filter_cons, hf, ih]

/-- C3 counterexample: secret with `replicate: "tgt"`, `rollout-on-update:
"true"` in namespace `src`; the replication write to `tgt` fails. The claim
requires a rollout in `src` and in `tgt` nevertheless; the code's `continue`
after the failed write skips the rollout for `tgt`, and the source namespace
is never part of the iterated set, so no rollout happens at all. -/
theorem c3_rollout_counterexample :
    (secretReconcile [(replicateKeyS, "tgt"), (rolloutOnUpdateKeyS, "true")]
        "src" ["src", "tgt"] (fun _ => false)).attempted = ["tgt"]
    ∧ (secretReconcile [(replicateKeyS, "tgt"), (rolloutOnUpdateKeyS, "true")]
        "src" ["src", "tgt"] (fun _ => false)).rolledOut = []
    ∧ "tgt" ∉ (secretReconcile [(replicateKeyS, "tgt"), (rolloutOnUpdateKeyS, "true")]
        "src" ["src", "tgt"] (fun _ => false)).rolledOut
    ∧ "src" ∉ (secretReconcile [(replicateKeyS, "tgt"), (rolloutOnUpdateKeyS, "true")]
        "src" ["src", "tgt"] (fun _ => false)).rolledOut :=
  ⟨rfl, rfl, by decide, by decide⟩

/-- C3 amended: when the reconciliation is not skipped, the rollout trigger is
invoked exactly for the namespaces of the resolved target list whose
replication write succeeded or in which no write was performed (value
`"false"`); the source namespace is not added to that set, and a failed write
skips that namespace's rollout. -/
theorem c3_rollout_per_target :
    (∀ replTo (rollout : Bool) (ok : String → Bool) ts, replTo ≠ "" →
      (secretReconcileLoop replTo rollout ok ts).rolledOut
        = ts.filter (fun ns => rollout && (replTo == "false" || ok ns)))
    ∧ (∀ v srcNs clusterNs (ok : String → Bool),
        v ≠ "" → v ≠ "false" → v ≠ "true" →
        (secretReconcile [(replicateKeyS, v), (rolloutOnUpdateKeyS, "true")]
            srcNs clusterNs ok).rolledOut
          = (splitComma v).filter (fun ns => ok ns)) := by
  refine ⟨fun replTo rollout ok ts h => secretReconcileLoop_rolledOut _ _ _ _ h,
    fun v srcNs clusterNs ok h1 h2 h3 => ?_⟩
  have e1 : annGet [(replicateKeyS, v), (rolloutOnUpdateKeyS, "true")] replicateKeyS
      = v := rfl
  have e2 : annGet [(replicateKeyS, v), (rolloutOnUpdateKeyS, "true")]
      rolloutOnUpdateKeyS = "true" := rfl
  have hv1 : (v == "") = false := by simp [h1]
  have hv2 : (v == "false") = false := by simp [h2]
  have hv3 : (v == "true") = false := by simp [h3]
  simp only [secretReconcile, e1, e2, hv1, hv2, hv3, Bool.false_and,
    Bool.or_false, if_false, Bool.or_self, ite_false]
  rw [if_neg (by simp [hv1, hv2])]
  rw [if_neg (by simp [hv3])]
  rw [secretReconcileLoop_rolledOut _ _ _ _ h1]
  simp [hv2]

/-- C3 amended witness at concrete inputs. -/
theorem c3_rollout_per_target_witness :
    (secretReconcileLoop "x" true (fun ns => ns == "a") ["a", "b"]).rolledOut
      = ["a", "b"].filter (fun ns => true && (("x" == "false") || (ns == "a")))
    ∧ (secretReconcile [(replicateKeyS, "a,b"), (rolloutOnUpdateKeyS, "true")]
        "src" [] (fun ns => ns == "a")).rolledOut
      = (splitComma "a,b").filter (fun ns => (ns == "a")) :=
  ⟨c3_rollout_per_target.1 "x" true (fun ns => ns == "a") ["a", "b"] (by decide),
   c3_rollout_per_target.2 "a,b" "src" [] (fun ns => ns == "a")
     (by decide) (by decide) (by decide)⟩

/-- When every comma entry is already trimmed, nonempty and different from the
source namespace, the resolver's parsing loop keeps the list unchanged. -/
theorem parseTargetLoop_id (src : String) (l : List String)
    (h : ∀ e ∈ l, trimSpace e = e ∧ e ≠ "" ∧ e ≠ src) :
    parseTargetLoop src l = l := by
  induction l with
  | nil => rfl
  | cons a rest ih =>
    have ha := h a (List.mem_cons_self a rest)
    have hb : (trimSpace a != "" && trimSpace a != src) = true := by
      simp [ha.1, bne_iff_ne, ha.2.1, ha.2.2]
    simp [parseTargetLoop, hb, ha.1, ha.2.1, ha.2.2,
      ih (fun e he => h e (List.mem_cons_of_mem a he))]

/-- C4 counterexample: on `replicate: "ns1, ,ns2,"` in namespace `src` the
controller replicates into the raw comma-split entries, including the
one-space namespace `" "` and the empty name `""`, while the resolver
produces `[ns1, ns2]`: the two target computations differ. -/
theorem c4_inline_vs_resolver_counterexample :
    (secretReconcile [(replicateKeyS, "ns1, ,ns2,")] "src" []
        (fun _ => true)).succeeded = ["ns1", " ", "ns2", ""]
    ∧ (ParseReplicationConfig [(ReplicateKey, "ns1, ,ns2,")] "src").TargetNamespaces
        = ["ns1", "ns2"]
    ∧ " " ∈ (secretReconcile [(replicateKeyS, "ns1, ,ns2,")] "src" []
        (fun _ => true)).succeeded
    ∧ " " ∉ (ParseReplicationConfig [(ReplicateKey, "ns1, ,ns2,")]
        "src").TargetNamespaces :=
  ⟨rfl, by decide, by decide, by decide⟩

/-- C4 amended: for comma lists the controller replicates into the raw
comma-split entries, with no trimming, no dropping of empty entries and no
source-namespace exclusion; its target set coincides with the resolver's
exactly under the hypothesis that every raw entry is already trimmed,
nonempty and different from the source namespace (the `"true"` and skip
branches agree unconditionally). -/
theorem c4_inline_parsing_refines_resolver (v srcNs : String)
    (clusterNs : List String) (ok : String → Bool)
    (h1 : v ≠ "") (h2 : v ≠ "false") (h3 : v ≠ "true")
    (h4 : ∀ e ∈ splitComma v, trimSpace e = e ∧ e ≠ "" ∧ e ≠ srcNs) :
    (secretReconcile [(replicateKeyS, v)] srcNs clusterNs ok).attempted
      = (ParseReplicationConfig [(ReplicateKey, v)] srcNs).TargetNamespaces := by
  have e1 : annGet [(replicateKeyS, v)] replicateKeyS = v := rfl
  have e2 : annGet [(replicateKeyS, v)] rolloutOnUpdateKeyS = "" := rfl
  have e3 : annGet [(ReplicateKey, v)] ReplicateKey = v := rfl
  have e4 : annGet [(ReplicateKey, v)] RolloutOnUpdateKey = "" := rfl
  have hv1 : (v == "") = false := by simp [h1]
  have hv2 : (v == "false") = false := by simp [h2]
  have hv3 : (v == "true") = false := by simp [h3]
  simp only [secretReconcile, ParseReplicationConfig, e1, e2, e3, e4]
  rw [if_neg (by simp [hv1, hv2]), if_neg (by simp [hv3]),
    if_neg (by simp [hv1, hv2]), if_neg (by simp [hv3])]
  rw [secretReconcileLoop_attempted _ _ _ _ h2 h1, parseTargetLoop_id _ _ h4]

/-- C4 amended witness at concrete inputs. -/
theorem c4_inline_parsing_refines_resolver_witness :
    (secretReconcile [(replicateKeyS, "ns1,ns2")] "src" [] (fun _ => true)).attempted
      = (ParseReplicationConfig [(ReplicateKey, "ns1,ns2")] "src").TargetNamespaces :=
  c4_inline_parsing_refines_resolver "ns1,ns2" "src" [] (fun _ => true)
    (by decide) (by decide) (by decide) (by decide)

/-- A Kubernetes Secret as the controllers see it: content fields
(`data`, `binaryData`, `type`, `labels`, `anns` standing for the
object's annotation map) and identity fields (`namespc` standing for
`metadata.namespace`, `uid`, `resourceVersion`, `creationTimestamp`,
`ownerReferences`). Maps become association lists; `DeepCopy` is the
identity on this value type. -/
structure SecretObj where
  name : String
  namespc : String
  labels : List (String × String)
  anns : List (String × String)
  data : List (String × String)
  binaryData : List (String × String)
  type : String
  uid : String
  resourceVersion : String
  creationTimestamp : String
  ownerReferences : List String
deriving DecidableEq, Repr

/-- The object that `SecretReconciler.replicateSecret`
(secret_controller.go:107-123) writes for a given target namespace: a deep
copy of the source with `Namespace` set to the target and `ResourceVersion`
and `UID` cleared; when a mirror already exists, the existing mirror's
`ResourceVersion` is carried into the payload before the update. No other
field is touched. -/
def replicateSecretWrite (original : SecretObj) (ns : String)
    (existing : Option SecretObj) : SecretObj :=
  let clone : SecretObj :=
    ⟨original.name, ns, original.labels, original.anns, original.data,
      original.binaryData, original.type, "", "", original.creationTimestamp,
      original.ownerReferences⟩
  match existing with
  | none => clone
  | some e =>
    ⟨clone.name, clone.namespc, clone.labels, clone.anns, clone.data,
      clone.binaryData, clone.type, clone.uid, e.resourceVersion,
      clone.creationTimestamp, clone.ownerReferences⟩

/-- Models the external store's create (spec section 4.2): the store assigns
`uid`, `resourceVersion` and `creationTimestamp` itself; every other field,
`ownerReferences` included, is stored as sent in the payload. -/
def serverCreate (payload : SecretObj) (freshUID freshRV freshCT : String) :
    SecretObj :=
  ⟨payload.name, payload.namespc, payload.labels, payload.anns, payload.data,
    payload.binaryData, payload.type, freshUID, freshRV, freshCT,
    payload.ownerReferences⟩

/-- Models the external store's update (spec section 4.2): the store bumps
`resourceVersion`; content fields are replaced by the payload's. -/
def serverUpdate (payload : SecretObj) (freshRV : String) : SecretObj :=
  ⟨payload.name, payload.namespc, payload.labels, payload.anns, payload.data,
    payload.binaryData, payload.type, payload.uid, freshRV,
    payload.creationTimestamp, payload.ownerReferences⟩

/-- One run of `replicateSecret` against a target slot: create when no mirror
exists there, update otherwise, returning the stored mirror. -/
def upsertSecret (existing : Option SecretObj) (source : SecretObj)
    (ns freshUID freshRV freshCT : String) : SecretObj :=
  match existing with
  | none => serverCreate (replicateSecretWrite source ns none) freshUID freshRV freshCT
  | some e => serverUpdate (replicateSecretWrite source ns (some e)) freshRV

/-- The mirror fields observable to consumers of the replicated resource. -/
def secretContent (s : SecretObj) :
    List (String × String) × List (String × String) × String
      × List (String × String) × List (String × String) :=
  (s.data, s.binaryData, s.type, s.labels, s.anns)

/-- A concrete source secret whose identity fields are all populated. -/
def demoSource : SecretObj :=
  ⟨"db-credentials", "src", [("team", "a")], [(ReplicateKey, "tgt")],
    [("user", "admin")], [("cert", "AAAA")], "Opaque", "uid-src", "42",
    "2024-01-01T00:00:00Z", ["deploy-a"]⟩

/-- C5 counterexample: the written mirror's `ownerReferences` are copied from
the source — `replicateSecret` clears only `ResourceVersion` and `UID`, so a
source with a nonempty `ownerReferences` list produces a mirror carrying that
same list, and the payload also carries the source's `creationTimestamp`. -/
theorem c5_identity_fields_counterexample :
    (upsertSecret none demoSource "tgt" "uid-new" "1" "2026-01-01T00:00:00Z").ownerReferences
      = demoSource.ownerReferences
    ∧ demoSource.ownerReferences ≠ []
    ∧ (replicateSecretWrite demoSource "tgt" none).creationTimestamp
      = demoSource.creationTimestamp :=
  ⟨rfl, by decide, rfl⟩

/-- C5 amended: the written payload's `data`, `binaryData`, `type`, `labels`
and annotation map equal the source's and its namespace is the target; `uid`
is cleared and `resourceVersion` is cleared on create and taken from the
existing mirror (never the source) on update; but `creationTimestamp` and
`ownerReferences` are carried over from the source, not cleared — only the
external store may replace them. -/
theorem c5_mirror_fields (source : SecretObj) (ns : String)
    (existing : Option SecretObj) :
    (replicateSecretWrite source ns existing).data = source.data
    ∧ (replicateSecretWrite source ns existing).binaryData = source.binaryData
    ∧ (replicateSecretWrite source ns existing).type = source.type
    ∧ (replicateSecretWrite source ns existing).labels = source.labels
    ∧ (replicateSecretWrite source ns existing).anns = source.anns
    ∧ (replicateSecretWrite source ns existing).name = source.name
    ∧ (replicateSecretWrite source ns existing).namespc = ns
    ∧ (replicateSecretWrite source ns existing).uid = ""
    ∧ (replicateSecretWrite source ns existing).resourceVersion
        = (match existing with
           | none => ""
           | some e => e.resourceVersion)
    ∧ (replicateSecretWrite source ns existing).creationTimestamp
        = source.creationTimestamp
    ∧ (replicateSecretWrite source ns existing).ownerReferences
        = source.ownerReferences := by
  cases existing <;>
    exact ⟨rfl, rfl, rfl, rfl, rfl, rfl, rfl, rfl, rfl, rfl, rfl⟩

/-- C9: the upsert is idempotent on observable content — re-running it with
the same source against the state produced by a successful upsert leaves the
mirror's `data`, `binaryData`, `type`, `labels` and annotation map unchanged,
whatever identity values the store assigns on either write. -/
theorem c9_upsert_idempotent (existing : Option SecretObj) (source : SecretObj)
    (ns u1 r1 c1 u2 r2 c2 : String) :
    secretContent
        (upsertSecret (some (upsertSecret existing source ns u1 r1 c1))
          source ns u2 r2 c2)
      = secretContent (upsertSecret existing source ns u1 r1 c1) := by
  cases existing <;> rfl

/-- `GetAllNamespaces` (replicator.go:76-89) after a successful namespace
list: every namespace name except the excluded one. No other name is
filtered out. -/
def GetAllNamespaces : List String → String → List String
  | [], _ => []
  | ns :: rest, excludeNamespace =>
    if ns != excludeNamespace then ns :: GetAllNamespaces rest excludeNamespace
    else GetAllNamespaces rest excludeNamespace

/-- Outcome of the shared `RestartDeployments` helper (replicator.go:95-119):
the deployments that received a patch attempt, in order, and the first patch
error if one occurred. Deployments are identified by name; `isUsing` is the
usage predicate passed by the caller and `patchOk` each patch's outcome. On
a failed patch the function returns the wrapped error at once, so later
deployments are not visited. -/
structure RestartResult where
  patched : List String
  failed : Option String
deriving DecidableEq, Repr

/-- `RestartDeployments` (replicator.go:95-119). -/
def RestartDeployments : List String → (String → Bool) → (String → Bool) →
    RestartResult
  | [], _, _ => ⟨[], none⟩
  | d :: rest, isUsing, patchOk =>
    if isUsing d then
      if patchOk d then
        let r := RestartDeployments rest isUsing patchOk
        ⟨d :: r.patched, r.failed⟩
      else ⟨[d], some d⟩
    else RestartDeployments rest isUsing patchOk

/-- `restartDeploymentsUsingSecret` (secret_controller.go:125-143): the Secret
controller's own rollout helper discards each patch result (`_ = r.Patch`)
and always returns nil, visiting every matching deployment. -/
def restartDeploymentsUsingSecret : List String → (String → Bool) →
    (String → Bool) → RestartResult
  | [], _, _ => ⟨[], none⟩
  | d :: rest, isUsing, patchOk =>
    if isUsing d then
      ⟨d :: (restartDeploymentsUsingSecret rest isUsing patchOk).patched, none⟩
    else restartDeploymentsUsingSecret rest isUsing patchOk

/-- C6 counterexample: two deployments both use the secret and the patch of
the first fails; the shared `RestartDeployments` helper returns the error at
once, so the second deployment is never patched — a patch error for one
workload does prevent the processing of the remaining workloads. -/
theorem c6_error_isolation_counterexample :
    RestartDeployments ["d1", "d2"] (fun _ => true) (fun d => d != "d1")
      = ⟨["d1"], some "d1"⟩
    ∧ "d2" ∉ (RestartDeployments ["d1", "d2"] (fun _ => true)
        (fun d => d != "d1")).patched
    ∧ (restartDeploymentsUsingSecret ["d1", "d2"] (fun _ => true)
        (fun d => d != "d1")).patched = ["d1", "d2"] :=
  ⟨rfl, by decide, rfl⟩

/-- C6 amended: in the Secret controller a failed replication write never
blocks the remaining target namespaces (the attempt set is independent of
per-namespace outcomes and covers every target), and its own rollout helper
ignores patch failures entirely; the shared `RestartDeployments` helper,
however, aborts at the first failed patch, so there a patch error does block
the remaining workloads of that namespace. -/
theorem c6_error_isolation :
    (∀ replTo (rollout : Bool) (ok1 ok2 : String → Bool) ts,
      (secretReconcileLoop replTo rollout ok1 ts).attempted
        = (secretReconcileLoop replTo rollout ok2 ts).attempted)
    ∧ (∀ replTo (rollout : Bool) (ok : String → Bool) ts,
        replTo ≠ "false" → replTo ≠ "" →
        (secretReconcileLoop replTo rollout ok ts).attempted = ts)
    ∧ (∀ ds (isUsing p1 p2 : String → Bool),
        restartDeploymentsUsingSecret ds isUsing p1
          = restartDeploymentsUsingSecret ds isUsing p2)
    ∧ (∀ ds (isUsing p : String → Bool),
        (restartDeploymentsUsingSecret ds isUsing p).failed = none)
    ∧ (∀ d rest (isUsing p : String → Bool), isUsing d = true → p d = false →
        RestartDeployments (d :: rest) isUsing p = ⟨[d], some d⟩) := by
  refine ⟨secretReconcileLoop_attempted_indep,
    secretReconcileLoop_attempted, ?_, ?_, ?_⟩
  · intro ds isUsing p1 p2
    induction ds with
    | nil => rfl
    | cons d rest ih =>
      cases h : isUsing d <;> simp [restartDeploymentsUsingSecret, h, ih]
  · intro ds isUsing p
    induction ds with
    | nil => rfl
    | cons d rest ih =>
      cases h : isUsing d <;> simp [restartDeploymentsUsingSecret, h, ih]
  · intro d rest isUsing p hu hp
    simp [RestartDeployments, hu, hp]

/-- C6 amended witness at concrete inputs. -/
theorem c6_error_isolation_witness :
    (secretReconcileLoop "x" false (fun _ => false) ["a", "b"]).attempted
      = (secretReconcileLoop "x" false (fun _ => true) ["a", "b"]).attempted
    ∧ (secretReconcileLoop "x" false (fun _ => false) ["a", "b"]).attempted
      = ["a", "b"]
    ∧ restartDeploymentsUsingSecret ["d1"] (fun _ => true) (fun _ => false)
      = restartDeploymentsUsingSecret ["d1"] (fun _ => true) (fun _ => true)
    ∧ (restartDeploymentsUsingSecret ["d1"] (fun _ => true) (fun _ => false)).failed
      = none
    ∧ RestartDeployments ["d1", "d2"] (fun _ => true) (fun _ => false)
      = ⟨["d1"], some "d1"⟩ :=
  ⟨c6_error_isolation.1 "x" false (fun _ => false) (fun _ => true) ["a", "b"],
   c6_error_isolation.2.1 "x" false (fun _ => false) ["a", "b"]
     (by decide) (by decide),
   c6_error_isolation.2.2.1 ["d1"] (fun _ => true) (fun _ => false) (fun _ => true),
   c6_error_isolation.2.2.2.1 ["d1"] (fun _ => true) (fun _ => false),
   c6_error_isolation.2.2.2.2 "d1" ["d2"] (fun _ => true) (fun _ => false)
     rfl rfl⟩

/-- The exclusion loop of `GetAllNamespaces` is exactly a filter. -/
theorem GetAllNamespaces_eq_filter (l : List String) (ex : String) :
    GetAllNamespaces l ex = l.filter (fun ns => ns != ex) := by
  induction l with
  | nil => rfl
  | cons a rest ih =>
    by_cases h : (a != ex) = true
    · simp [GetAllNamespaces, List.filter_cons, h, ih]
    · simp only [Bool.not_eq_true] at h
      simp [GetAllNamespaces, List.filter_cons, h, ih]

/-- Membership in `GetAllNamespaces`: exactly the listed names other than the
excluded one — no further name is removed. -/
theorem mem_GetAllNamespaces (l : List String) (ex ns : String) :
    ns ∈ GetAllNamespaces l ex ↔ (ns ∈ l ∧ ns ≠ ex) := by
  rw [GetAllNamespaces_eq_filter]
  simp [List.mem_filter]

/-- Modelled from the spec: `IsSystemNamespace`, which src/ only calls
(part_003, NamespaceReconciler.Reconcile) but does not define. The spec and
the API documentation fix the protected set as `kube-system`, `kube-public`
and `kube-node-lease`. -/
def IsSystemNamespace (ns : String) : Bool :=
  ns == "kube-system" || ns == "kube-public" || ns == "kube-node-lease"

/-- Modelled from the spec: `GetSecretsToReplicateAll`, which src/ only calls
(part_003) but does not define — the cluster-wide list of resources carrying
`replicate-all: "true"` (spec section 4.5). -/
def GetSecretsToReplicateAll (secrets : List SecretObj) : List SecretObj :=
  secrets.filter (fun s => annGet s.anns ReplicateAllKey == "true")

/-- Modelled from the spec: `GetConfigMapsToReplicateAll` (part_003 caller),
the ConfigMap analogue of `GetSecretsToReplicateAll`; configmaps are
represented with the same record type, their `type`/`binaryData` unused. -/
def GetConfigMapsToReplicateAll (cms : List SecretObj) : List SecretObj :=
  cms.filter (fun s => annGet s.anns ReplicateAllKey == "true")

/-- The per-resource cascade loop of `NamespaceReconciler.Reconcile`
(part_003:75-102): skip resources living in the new namespace itself;
replication errors are logged and `continue`, so every other resource gets a
replication attempt. The result lists the `(source namespace, name)` pairs
replicated into the new namespace, in order. -/
def cascadeLoop (nsName : String) : List SecretObj → List (String × String)
  | [] => []
  | s :: rest =>
    if s.namespc == nsName then cascadeLoop nsName rest
    else (s.namespc, s.name) :: cascadeLoop nsName rest

/-- `NamespaceReconciler.Reconcile` (part_003:43-105) after the namespace has
been read: terminating and protected system namespaces are skipped before
any replication; otherwise every `replicate-all` secret and configmap from
another namespace is replicated into the new namespace. -/
def namespaceReconcile (nsName : String) (terminating : Bool)
    (secrets cms : List SecretObj) : List (String × String) :=
  if terminating then []
  else if IsSystemNamespace nsName then []
  else cascadeLoop nsName (GetSecretsToReplicateAll secrets)
    ++ cascadeLoop nsName (GetConfigMapsToReplicateAll cms)

/-- C2 counterexample: `kube-system` does land in produced target sets. The
static-list resolver passes it through when listed, `GetAllNamespaces`
returns it whenever the cluster has it and it is not the source, and the
Secret controller's all-namespaces path replicates into it. -/
theorem c2_protected_namespaces_counterexample :
    "kube-system" ∈ GetAllNamespaces ["kube-system", "src", "app"] "src"
    ∧ "kube-system" ∈ (ParseReplicationConfig
        [(ReplicateKey, "team-a,kube-system")] "src").TargetNamespaces
    ∧ "kube-system" ∈ (secretReconcile [(replicateKeyS, "true")] "src"
        ["kube-system", "src", "app"] (fun _ => true)).succeeded :=
  ⟨by decide, by decide, by decide⟩

/-- C2 amended: only the namespace-creation cascade excludes the protected
system namespaces (it performs no replication at all into them); the static
replicate list and the all-namespaces resolution exclude nothing but the
empty entry and the source namespace, so a protected name appears in their
produced target sets whenever listed or present in the cluster. -/
theorem c2_protected_namespaces :
    (∀ nsName (terminating : Bool) secrets cms,
      IsSystemNamespace nsName = true →
      namespaceReconcile nsName terminating secrets cms = [])
    ∧ (∀ (l : List String) src, "kube-system" ∈ l → src ≠ "kube-system" →
        "kube-system" ∈ GetAllNamespaces l src)
    ∧ (∀ v src ns, v ≠ "" → v ≠ "false" → v ≠ "true" →
        (ns ∈ (ParseReplicationConfig [(ReplicateKey, v)] src).TargetNamespaces
          ↔ (ns ∈ (splitComma v).map trimSpace ∧ ns ≠ "" ∧ ns ≠ src))) := by
  refine ⟨?_, ?_, ?_⟩
  · intro nsName terminating secrets cms h
    cases terminating <;> simp [namespaceReconcile, h]
  · intro l src hm hne
    exact (mem_GetAllNamespaces l src "kube-system").mpr
      ⟨hm, fun e => hne e.symm⟩
  · intro v src ns h1 h2 h3
    have e : annGet [(ReplicateKey, v)] ReplicateKey = v := rfl
    have hv1 : (v == "") = false := by simp [h1]
    have hv2 : (v == "false") = false := by simp [h2]
    have hv3 : (v == "true") = false := by simp [h3]
    simp only [ParseReplicationConfig, e]
    rw [if_neg (by simp [hv1, hv2]), if_neg (by simp [hv3])]
    exact mem_parseTargetLoop src ns (splitComma v)

/-- C2 amended witness at concrete inputs. -/
theorem c2_protected_namespaces_witness :
    namespaceReconcile "kube-system" false [demoSource] [] = []
    ∧ "kube-system" ∈ GetAllNamespaces ["kube-system", "app"] "app"
    ∧ ("kube-system" ∈ (ParseReplicationConfig [(ReplicateKey, "kube-system")]
        "src").TargetNamespaces
      ↔ ("kube-system" ∈ (splitComma "kube-system").map trimSpace
          ∧ "kube-system" ≠ "" ∧ "kube-system" ≠ "src")) :=
  ⟨c2_protected_namespaces.1 "kube-system" false [demoSource] [] (by decide),
   c2_protected_namespaces.2.1 ["kube-system", "app"] "app"
     (by decide) (by decide),
   c2_protected_namespaces.2.2 "kube-system" "src" "kube-system"
     (by decide) (by decide) (by decide)⟩

/-- Modelled from the spec: the replicate-all-aware `ParseReplicationConfig`.
src/ contains only this function's tests (part_003) and its documented
behavior, not its definition — the replicator.go under src/ is the earlier
revision without `replicate-all`. Spec section 4.1 precedence: `replicate-all
== "true"` yields the all-namespaces intent ignoring `replicate` entirely;
otherwise (missing or `"false"`) the `replicate` value applies — empty or
`"false"` skips, `"true"` means legacy all-namespaces unless `replicate-all`
is explicitly `"false"` (then it names the namespace `"true"`), and any other
value is the comma list with trimming, empty-drop and self-exclusion. The
rollout flag is read independently. -/
def ParseReplicationConfigV2 (m : List (String × String))
    (sourceNamespace : String) : ReplicationConfig :=
  let replicateTo := annGet m ReplicateKey
  let replicateAllVal := annGet m ReplicateAllKey
  let rollout := annGet m RolloutOnUpdateKey == "true"
  if replicateAllVal == "true" then
    ⟨[], true, rollout, false⟩
  else if replicateTo == "" || replicateTo == "false" then
    ⟨[], false, rollout, true⟩
  else if replicateTo == "true" && !(replicateAllVal == "false") then
    ⟨[], true, rollout, false⟩
  else
    ⟨parseTargetLoop sourceNamespace (splitComma replicateTo), false, rollout, false⟩

/-- C1: whenever the annotation map carries `replicate-all: "true"`, the
resolved intent is all-namespaces with an empty static target list,
whatever value the `replicate` annotation holds. -/
theorem c1_replicate_all_precedence (m : List (String × String))
    (src : String) (h : annGet m ReplicateAllKey = "true") :
    (ParseReplicationConfigV2 m src).ReplicateAll = true
    ∧ (ParseReplicationConfigV2 m src).TargetNamespaces = []
    ∧ (ParseReplicationConfigV2 m src).SkipReplication = false := by
  simp [ParseReplicationConfigV2, h]

/-- C1 witness: `replicate-all: "true"` together with a `replicate` list. -/
theorem c1_replicate_all_precedence_witness :
    (ParseReplicationConfigV2
        [(ReplicateAllKey, "true"), (ReplicateKey, "ns1,ns2")] "src").ReplicateAll
      = true
    ∧ (ParseReplicationConfigV2
        [(ReplicateAllKey, "true"), (ReplicateKey, "ns1,ns2")]
        "src").TargetNamespaces = []
    ∧ (ParseReplicationConfigV2
        [(ReplicateAllKey, "true"), (ReplicateKey, "ns1,ns2")]
        "src").SkipReplication = false :=
  c1_replicate_all_precedence
    [(ReplicateAllKey, "true"), (ReplicateKey, "ns1,ns2")] "src" (by decide)

/-- C7: `replicate-all: "false"` with `replicate: "true"` disambiguates the
literal namespace name — the intent is not all-namespaces and the static
target set is exactly the namespace named `"true"`, provided the source
namespace is not itself named `"true"`. -/
theorem c7_namespace_named_true (m : List (String × String)) (src : String)
    (h1 : annGet m ReplicateAllKey = "false")
    (h2 : annGet m ReplicateKey = "true") (h3 : src ≠ "true") :
    (ParseReplicationConfigV2 m src).ReplicateAll = false
    ∧ (ParseReplicationConfigV2 m src).TargetNamespaces = ["true"]
    ∧ (ParseReplicationConfigV2 m src).SkipReplication = false := by
  have hs : ("true" != src) = true := bne_iff_ne.mpr (fun e => h3 e.symm)
  have htrim : trimSpace "true" = "true" := rfl
  have hsplit : splitComma "true" = ["true"] := rfl
  have ht : parseTargetLoop src (splitComma "true") = ["true"] := by
    simp [hsplit, parseTargetLoop, htrim, hs]
  simp [ParseReplicationConfigV2, h1, h2, ht]

/-- C7 witness at a concrete annotation map. -/
theorem c7_namespace_named_true_witness :
    (ParseReplicationConfigV2
        [(ReplicateAllKey, "false"), (ReplicateKey, "true")] "src").ReplicateAll
      = false
    ∧ (ParseReplicationConfigV2
        [(ReplicateAllKey, "false"), (ReplicateKey, "true")]
        "src").TargetNamespaces = ["true"]
    ∧ (ParseReplicationConfigV2
        [(ReplicateAllKey, "false"), (ReplicateKey, "true")]
        "src").SkipReplication = false :=
  c7_namespace_named_true [(ReplicateAllKey, "false"), (ReplicateKey, "true")]
    "src" (by decide) (by decide) (by decide)
